import Mathlib

/-!
Shallow embedding of the "higher or lower" startup-valuation game.

Embedded source:

* `lib/supabase.ts` — `tryGetSupabase`, `getSupabaseImageUrl`;
* `lib/fallback-data.ts` — `fallbackStartups`, the ten embedded records;
* the game page, of which the repository keeps several iterations:
  - the first iteration compares raw valuations and keeps no prefetch
    buffer (its `getRandomStartup` is `getRandomStartupFirstVariant`
    below, its correctness test `handleGuessIsCorrectRaw`);
  - the prefetch iterations compare rounded display valuations and keep
    two prefetch slots (`getRandomStartup`, `initializeGame`,
    `handleGuess` below follow this code, which is shared verbatim by
    the last two in-memory iterations);
  - the random-offset iteration fetches single rows at random offsets
    with a bounded attempt count (`huntRandomStartup`,
    `getRandomStartupAtOffsets` below).

Modelling conventions.  JavaScript numbers are modelled as `Nat`: every
valuation in play is a positive integer far below 2^53, where double
arithmetic is exact, and `Math.round (v / 10^k)` equals the exact
`(v + 10^k / 2) / 10^k` in natural division.  The draw
`Math.floor (Math.random () * n)` is modelled by an arbitrary `k : Nat`
taken `k % n`, so a uniform statement quantifies over the draw.  A
JavaScript `Set` is an insertion-ordered duplicate-free list (`addId`,
`removeId`).  `null` and `undefined` are `Option.none`.  The image
preloads commit the identical state on both the resolved and the
rejected path of their `try`/`catch`, so every transition commits a
single state; the transient values set before the `setTimeout` callback
fires are superseded inside the same transition and the committed state
is the one modelled.  The dynamic `created_at` / `updated_at`
timestamps (`new Date ()` evaluated at module load) carry no game logic
and are omitted from the record type.
-/

namespace HigherOrLower

/-- A company valuation record (interface `Startup` in `lib/supabase.ts`);
`image_url` is `string | null` there. -/
structure Startup where
  id : Nat
  name : String
  description : String
  valuation : Nat
  image_url : Option String
deriving DecidableEq

/-- The guess direction: the `"higher" | "lower"` union type. -/
inductive Guess where
  | higher
  | lower
deriving DecidableEq, BEq

/-- The ten embedded fallback records of `lib/fallback-data.ts`, in order. -/
def fallbackStartups : List Startup :=
  [ { id := 1, name := "SpaceX",
      description := "Private space exploration company revolutionizing space travel and satellite internet with reusable rockets and Starlink constellation.",
      valuation := 180000000000,
      image_url := some "https://placehold.co/300x200/FF0000/FFFFFF?text=SpaceX" },
    { id := 2, name := "ByteDance",
      description := "Chinese technology company behind TikTok and AI-driven content platforms, serving billions of users worldwide with innovative algorithms.",
      valuation := 140000000000,
      image_url := some "https://placehold.co/300x200/00FF00/000000?text=ByteDance" },
    { id := 3, name := "Stripe",
      description := "Financial services company providing payment processing software for businesses of all sizes across the globe with seamless integration.",
      valuation := 95000000000,
      image_url := some "https://placehold.co/300x200/0000FF/FFFFFF?text=Stripe" },
    { id := 4, name := "Klarna",
      description := "Swedish fintech company offering buy-now-pay-later services and banking solutions worldwide with flexible payment options.",
      valuation := 46000000000,
      image_url := some "https://placehold.co/300x200/FFFF00/000000?text=Klarna" },
    { id := 5, name := "Canva",
      description := "Australian graphic design platform enabling users to create social media graphics, presentations, and marketing materials easily.",
      valuation := 40000000000,
      image_url := some "https://placehold.co/300x200/FF00FF/FFFFFF?text=Canva" },
    { id := 6, name := "Databricks",
      description := "Data analytics platform providing unified analytics for big data and machine learning solutions for enterprises worldwide.",
      valuation := 38000000000,
      image_url := some "https://placehold.co/300x200/00FFFF/000000?text=Databricks" },
    { id := 7, name := "Discord",
      description := "Voice and text communication service designed for gaming communities and online collaboration with millions of active users.",
      valuation := 15000000000,
      image_url := some "https://placehold.co/300x200/800000/FFFFFF?text=Discord" },
    { id := 8, name := "Notion",
      description := "Productivity software combining notes, tasks, wikis, and databases in one collaborative workspace for teams and individuals.",
      valuation := 10000000000,
      image_url := some "https://placehold.co/300x200/008000/FFFFFF?text=Notion" },
    { id := 9, name := "Figma",
      description := "Collaborative web-based design tool for interface design, prototyping, and team collaboration used by millions of designers.",
      valuation := 20000000000,
      image_url := some "https://placehold.co/300x200/000080/FFFFFF?text=Figma" },
    { id := 10, name := "Revolut",
      description := "British fintech company offering digital banking, cryptocurrency, and financial services globally with innovative features.",
      valuation := 33000000000,
      image_url := some "https://placehold.co/300x200/808000/FFFFFF?text=Revolut" } ]

/-- `getRoundedValuationNumber`: `Math.round (valuation / 1e9)` when the
valuation is at least one billion, else `Math.round (valuation / 1e6)`,
computed exactly — JavaScript rounds positive halves up, which on naturals
is `(v + d / 2) / d`. -/
def getRoundedValuationNumber (valuation : Nat) : Nat :=
  if 1000000000 ≤ valuation then (valuation + 500000000) / 1000000000
  else (valuation + 500000) / 1000000

/-- `formatValuation`: render rounded billions as `"N B"` when the valuation
is at least 1e9, else rounded millions as `"N M"`. -/
def formatValuation (valuation : Nat) : String :=
  if 1000000000 ≤ valuation then
    toString ((valuation + 500000000) / 1000000000) ++ " B"
  else
    toString ((valuation + 500000) / 1000000) ++ " M"

/-- The correctness test of the first iteration's `handleGuess` (raw
valuations): `(guess === "higher" && right > left) ||
(guess === "lower" && right < left)`. -/
def handleGuessIsCorrectRaw (guess : Guess) (leftValuation rightValuation : Nat) : Bool :=
  (guess == Guess.higher && decide (leftValuation < rightValuation)) ||
  (guess == Guess.lower && decide (rightValuation < leftValuation))

/-- The correctness test of the prefetch iterations' `handleGuess` (rounded
display valuations, equality counts as correct):
`rightRounded === leftRounded || (guess === "higher" && rightRounded >
leftRounded) || (guess === "lower" && rightRounded < leftRounded)`. -/
def handleGuessIsCorrectRounded (guess : Guess) (leftValuation rightValuation : Nat) : Bool :=
  let l := getRoundedValuationNumber leftValuation
  let r := getRoundedValuationNumber rightValuation
  r == l ||
  (guess == Guess.higher && decide (l < r)) ||
  (guess == Guess.lower && decide (r < l))

/-- JavaScript `Set.add`: append the element unless already present
(insertion order preserved). -/
def addId (l : List Nat) (i : Nat) : List Nat :=
  if l.contains i then l else l ++ [i]

/-- JavaScript `Set.delete`: remove the element. -/
def removeId (l : List Nat) (i : Nat) : List Nat :=
  l.filter fun x => x ≠ i

/-- `getRandomStartup` of the prefetch iterations: filter the in-memory pool
by the exclusion set; if anything is available pick at the random index,
otherwise recycle a random item from the whole pool, and only if the pool
itself is empty return the error record.  `k` models the random draw. -/
def getRandomStartup (startups : List Startup) (excludeIds : List Nat) (k : Nat) : Startup :=
  let available := startups.filter fun s => !(excludeIds.contains s.id)
  if h : 0 < available.length then
    available.get ⟨k % available.length, Nat.mod_lt _ h⟩
  else if h2 : 0 < startups.length then
    startups.get ⟨k % startups.length, Nat.mod_lt _ h2⟩
  else
    { id := 0, name := "Error", description := "No Data",
      valuation := 1000000, image_url := some "" }

/-- `getRandomStartup` of the first iteration: on an exhausted pool it does
not draw at random; it rebuilds the exclusion from the first-inserted
excluded id only and returns index `[0]` of the refiltered list, which is
`undefined` (here `none`) when that list is empty. -/
def getRandomStartupFirstVariant (startups : List Startup) (exclude : List Nat) (k : Nat) :
    Option Startup :=
  let available := startups.filter fun s => !(exclude.contains s.id)
  if available.length = 0 then
    let resetExclude : List Nat :=
      match exclude.head? with
      | some v => [v]
      | none => []
    (startups.filter fun s => !(resetExclude.contains s.id)).head?
  else
    available.get? (k % available.length)

/-- The round state of the prefetch iterations: the `useState` cells that
carry game logic. -/
structure GameState where
  leftStartup : Option Startup
  rightStartup : Option Startup
  prefetchedNext : Option Startup
  prefetchedSecondNext : Option Startup
  score : Nat
  gameOver : Bool
  showRightValuation : Bool
  isAnimating : Bool
  usedStartupIds : List Nat
  lastGuess : Option Guess
deriving DecidableEq

/-- The initial `useState` values at component mount. -/
def initialGameState : GameState :=
  { leftStartup := none, rightStartup := none,
    prefetchedNext := none, prefetchedSecondNext := none,
    score := 0, gameOver := false, showRightValuation := false,
    isAnimating := false, usedStartupIds := [], lastGuess := none }

/-- `initializeGame` of the prefetch iterations: below two pool items it
returns without touching the state (below four it only warns); otherwise it
draws four items, each excluding the ids drawn before it, and commits the
fresh round state (both branches of the preload `try`/`catch` commit the
same state).  `k1`–`k4` model the four random draws. -/
def initializeGame (startups : List Startup) (k1 k2 k3 k4 : Nat) (s : GameState) : GameState :=
  if startups.length < 2 then s
  else
    let first := getRandomStartup startups [] k1
    let u1 := addId [] first.id
    let second := getRandomStartup startups u1 k2
    let u2 := addId u1 second.id
    let third := getRandomStartup startups u2 k3
    let u3 := addId u2 third.id
    let fourth := getRandomStartup startups u3 k4
    let u4 := addId u3 fourth.id
    { leftStartup := some first, rightStartup := some second,
      prefetchedNext := some third, prefetchedSecondNext := some fourth,
      score := 0, gameOver := false, showRightValuation := false,
      isAnimating := false, usedStartupIds := u4, lastGuess := none }

/-- `handleGuess` of the prefetch iterations.  Guard: with any of the four
slots empty or an animation in progress it returns at once.  On a correct
guess it commits the shifted queue, the score incremented, the new second
prefetch drawn excluding the used set minus the outgoing left id, and the
used set updated; on an incorrect guess it commits the game-over flag with
the pair and the guess retained.  `k` models the random draw of the new
prefetch. -/
def handleGuess (startups : List Startup) (guess : Guess) (k : Nat) (s : GameState) : GameState :=
  match s.leftStartup, s.rightStartup, s.prefetchedNext, s.prefetchedSecondNext with
  | some left, some right, some pre1, some pre2 =>
    if s.isAnimating then s
    else
      if handleGuessIsCorrectRounded guess left.valuation right.valuation then
        let newUsedIds := removeId s.usedStartupIds left.id
        let cand := getRandomStartup startups newUsedIds k
        { leftStartup := some right, rightStartup := some pre1,
          prefetchedNext := some pre2, prefetchedSecondNext := some cand,
          score := s.score + 1, gameOver := s.gameOver,
          showRightValuation := false, isAnimating := false,
          usedStartupIds := addId newUsedIds cand.id, lastGuess := none }
      else
        { s with gameOver := true, showRightValuation := true, lastGuess := some guess }
  | _, _, _, _ => s

/-- Run a sequence of guess events (each with its random draw) through
`handleGuess`. -/
def runGuesses (startups : List Startup) (s : GameState) : List (Guess × Nat) → GameState
  | [] => s
  | (g, k) :: rest => runGuesses startups (handleGuess startups g k s) rest

/-- A guess event is accepted (scores) exactly when the guard passes and the
rounded comparison judges it correct. -/
def guessAccepted (guess : Guess) (s : GameState) : Bool :=
  match s.leftStartup, s.rightStartup, s.prefetchedNext, s.prefetchedSecondNext with
  | some left, some right, some _, some _ =>
    !s.isAnimating && handleGuessIsCorrectRounded guess left.valuation right.valuation
  | _, _, _, _ => false

/-- Both active slots are populated and carry distinct identifiers. -/
def distinctActivePair (s : GameState) : Bool :=
  match s.leftStartup, s.rightStartup with
  | some left, some right => left.id != right.id
  | _, _ => false

/-- The `Ready` state: all four slots populated, no terminal flag, no
animation in progress. -/
def isReady (s : GameState) : Bool :=
  s.leftStartup.isSome && s.rightStartup.isSome &&
  s.prefetchedNext.isSome && s.prefetchedSecondNext.isSome &&
  !s.gameOver && !s.isAnimating

/-- The two environment variables needed to reach the remote collaborator;
`none` models an absent variable. -/
structure SupabaseEnv where
  url : Option String
  key : Option String

/-- A constructed remote client (the two strings it was built from). -/
structure SupabaseClient where
  url : String
  key : String
deriving DecidableEq

/-- `tryGetSupabase`: a client only when both variables are present and
non-empty (JavaScript treats the empty string as falsy); a construction
throw is likewise reported as absence, never raised. -/
def tryGetSupabase (env : SupabaseEnv) : Option SupabaseClient :=
  match env.url, env.key with
  | some u, some k => if u.isEmpty || k.isEmpty then none else some { url := u, key := k }
  | _, _ => none

/-- The placeholder URL of `getSupabaseImageUrl`. -/
def placeholderImageUrl : String :=
  "https://placehold.co/300x200/cccccc/000000?text=No+Image"

/-- JavaScript `String.prototype.startsWith` (also Lean's
`String.startsWith`), modelled on the character lists so that it evaluates
inside the kernel. -/
def stringStartsWith (s pre : String) : Bool :=
  pre.data.isPrefixOf s.data

/-- Modelled from the spec: the remote storage collaborator (the
`@supabase/supabase-js` dependency, outside this repository) resolves a
public URL for a stored object path keyed by a fixed namespace; the result
is the client URL extended by the bucket and the path. -/
def storagePublicUrl (client : SupabaseClient) (bucket path : String) : String :=
  client.url ++ "/storage/v1/object/public/" ++ bucket ++ "/" ++ path

/-- `getSupabaseImageUrl`: placeholder for a missing or empty reference,
the reference itself when it already starts with `"http"`, otherwise the
storage resolution against bucket `"startup-images"`, with the placeholder
when no client can be constructed. -/
def getSupabaseImageUrl (env : SupabaseEnv) (imagePath : Option String) : String :=
  match imagePath with
  | none => placeholderImageUrl
  | some p =>
    if p.isEmpty then placeholderImageUrl
    else if stringStartsWith p "http" then p
    else
      match tryGetSupabase env with
      | none => placeholderImageUrl
      | some client => storagePublicUrl client "startup-images" p

/-- `fetchStartups` of the prefetch iterations, returning the candidate pool
and the `usingFallbackData` flag.  `remote` models the awaited result of the
full-table query: an error (thrown and caught; this code path does not set
the fallback flag), or the ordered rows. -/
def fetchStartups (env : SupabaseEnv) (remote : Except String (List Startup)) :
    List Startup × Bool :=
  match tryGetSupabase env with
  | none => (fallbackStartups, true)
  | some _ =>
    match remote with
    | Except.error _ => (fallbackStartups, false)
    | Except.ok data => if data.isEmpty then (fallbackStartups, true) else (data, false)

/-- `MAX_ATTEMPTS` of the random-offset iteration. -/
def MAX_ATTEMPTS : Nat := 20

/-- The random-offset hunt loop: while nothing is found and attempts remain,
draw an offset, fetch the single row there (`fetchAt offset = none` models
both a fetch error and a missing row), and accept it only when its id is
not excluded.  Returns the found row (if any) and the number of fetches
performed.  `offs i` models the random draw of attempt `i`; the fuel equals
`MAX_ATTEMPTS` minus the attempts already spent, mirroring the loop
condition `attempts < MAX_ATTEMPTS`. -/
def huntRandomStartup (fetchAt : Nat → Option Startup) (totalCount : Nat)
    (excludeIds : List Nat) (offs : Nat → Nat) : Nat → Nat → Option Startup × Nat
  | _, 0 => (none, 0)
  | attempts, fuel + 1 =>
    match fetchAt (offs attempts % totalCount) with
    | none =>
      let r := huntRandomStartup fetchAt totalCount excludeIds offs (attempts + 1) fuel
      (r.1, r.2 + 1)
    | some data =>
      if excludeIds.contains data.id then
        let r := huntRandomStartup fetchAt totalCount excludeIds offs (attempts + 1) fuel
        (r.1, r.2 + 1)
      else
        (some data, 1)

/-- `getRandomStartup` of the random-offset iteration.  Without a client (or
with the fallback flag set) it picks from the fallback list, recycling from
the whole list when everything is excluded.  With a client it runs the
bounded hunt, and after exhausting the attempts recycles a random fallback
record rather than failing; the error records are returned only for an
empty remote table or an empty fallback list.  `kFall` models the fallback
random draw. -/
def getRandomStartupAtOffsets (clientAvailable usingFallbackData : Bool)
    (fetchAt : Nat → Option Startup) (totalStartupsCount : Nat)
    (excludeIds : List Nat) (offs : Nat → Nat) (kFall : Nat) : Startup :=
  if !clientAvailable || usingFallbackData then
    let available := fallbackStartups.filter fun s => !(excludeIds.contains s.id)
    if h : 0 < available.length then
      available.get ⟨kFall % available.length, Nat.mod_lt _ h⟩
    else
      fallbackStartups.get ⟨kFall % fallbackStartups.length, Nat.mod_lt _ (by decide)⟩
  else if totalStartupsCount = 0 then
    { id := 0, name := "Error", description := "No Data (DB Empty)",
      valuation := 1000000, image_url := some "" }
  else
    match (huntRandomStartup fetchAt totalStartupsCount excludeIds offs 0 MAX_ATTEMPTS).1 with
    | some data => data
    | none =>
      if h : 0 < fallbackStartups.length then
        fallbackStartups.get ⟨kFall % fallbackStartups.length, Nat.mod_lt _ h⟩
      else
        { id := 0, name := "Error", description := "No Data (Failed to Fetch)",
          valuation := 1000000, image_url := some "" }

/-- The four draws of `initializeGame` and the exclusion sets built between
them (proof-layer names for the `let`-bound values of the source). -/
def initPick1 (startups : List Startup) (k1 : Nat) : Startup :=
  getRandomStartup startups [] k1

def initUsed1 (startups : List Startup) (k1 : Nat) : List Nat :=
  addId [] (initPick1 startups k1).id

def initPick2 (startups : List Startup) (k1 k2 : Nat) : Startup :=
  getRandomStartup startups (initUsed1 startups k1) k2

def initUsed2 (startups : List Startup) (k1 k2 : Nat) : List Nat :=
  addId (initUsed1 startups k1) (initPick2 startups k1 k2).id

def initPick3 (startups : List Startup) (k1 k2 k3 : Nat) : Startup :=
  getRandomStartup startups (initUsed2 startups k1 k2) k3

def initUsed3 (startups : List Startup) (k1 k2 k3 : Nat) : List Nat :=
  addId (initUsed2 startups k1 k2) (initPick3 startups k1 k2 k3).id

def initPick4 (startups : List Startup) (k1 k2 k3 k4 : Nat) : Startup :=
  getRandomStartup startups (initUsed3 startups k1 k2 k3) k4

def initUsed4 (startups : List Startup) (k1 k2 k3 k4 : Nat) : List Nat :=
  addId (initUsed3 startups k1 k2 k3) (initPick4 startups k1 k2 k3 k4).id

/-- The new second-prefetch draw of a correct guess. -/
def guessPick (startups : List Startup) (k : Nat) (s : GameState) (left : Startup) : Startup :=
  getRandomStartup startups (removeId s.usedStartupIds left.id) k

/-- The round invariant of a well-stocked session: all four slots populated
with pairwise-distinct identifiers, and the used-id set is duplicate-free and
holds exactly the four in-play identifiers. -/
def SessionInv (s : GameState) : Prop :=
  ∃ left right pre1 pre2 : Startup,
    s.leftStartup = some left ∧ s.rightStartup = some right ∧
    s.prefetchedNext = some pre1 ∧ s.prefetchedSecondNext = some pre2 ∧
    [left.id, right.id, pre1.id, pre2.id].Nodup ∧
    s.usedStartupIds.Nodup ∧
    (∀ n, n ∈ s.usedStartupIds ↔ (n = left.id ∨ n = right.id ∨ n = pre1.id ∨ n = pre2.id))

/-- Concrete fixtures used by counterexamples and witnesses.  `smallPool` is
a two-item pool whose valuations round to the same bucket, `soloStartup` a
singleton pool item, and `readyState` a `Ready` state holding the four
`w`-records with the matching used-id set. -/
def smallPoolA : Startup :=
  { id := 1, name := "Alpha", description := "first test item",
    valuation := 1000000000, image_url := none }

def smallPoolB : Startup :=
  { id := 2, name := "Beta", description := "second test item",
    valuation := 1000000000, image_url := none }

def smallPool : List Startup := [smallPoolA, smallPoolB]

def soloStartup : Startup :=
  { id := 7, name := "Solo", description := "the only pool item",
    valuation := 1000000, image_url := none }

def wLeft : Startup :=
  { id := 11, name := "L", description := "left active", valuation := 5000000000, image_url := none }

def wRight : Startup :=
  { id := 12, name := "R", description := "right active", valuation := 3000000000, image_url := none }

def wPre1 : Startup :=
  { id := 13, name := "P1", description := "first prefetch", valuation := 7000000000, image_url := none }

def wPre2 : Startup :=
  { id := 14, name := "P2", description := "second prefetch", valuation := 2000000000, image_url := none }

def readyState : GameState :=
  { leftStartup := some wLeft, rightStartup := some wRight,
    prefetchedNext := some wPre1, prefetchedSecondNext := some wPre2,
    score := 0, gameOver := false, showRightValuation := false,
    isAnimating := false, usedStartupIds := [11, 12, 13, 14], lastGuess := none }

def noConfigEnv : SupabaseEnv := { url := none, key := none }

def demoEnv : SupabaseEnv :=
  { url := some "https://example.supabase.co", key := some "anon-key" }

def demoClient : SupabaseClient :=
  { url := "https://example.supabase.co", key := "anon-key" }

lemma contains_eq_true_iff (l : List Nat) (n : Nat) : l.contains n = true ↔ n ∈ l := by
  simp

lemma mem_addId (l : List Nat) (i n : Nat) : n ∈ addId l i ↔ n ∈ l ∨ n = i := by
  unfold addId
  split
  · next hc =>
    rw [contains_eq_true_iff] at hc
    constructor
    · exact Or.inl
    · rintro (h | rfl)
      · exact h
      · exact hc
  · simp

lemma nodup_addId (l : List Nat) (i : Nat) (h : l.Nodup) : (addId l i).Nodup := by
  unfold addId
  split
  · exact h
  · next hc =>
    rw [contains_eq_true_iff] at hc
    simpa [List.nodup_append] using ⟨h, fun hmem => hc (by simpa using hmem)⟩

lemma length_addId_le (l : List Nat) (i : Nat) : (addId l i).length ≤ l.length + 1 := by
  unfold addId
  split <;> simp

lemma mem_removeId (l : List Nat) (i n : Nat) : n ∈ removeId l i ↔ n ∈ l ∧ n ≠ i := by
  unfold removeId
  simp [List.mem_filter]

lemma nodup_removeId (l : List Nat) (i : Nat) (h : l.Nodup) : (removeId l i).Nodup :=
  h.filter _

lemma getRandomStartup_mem (startups : List Startup) (ex : List Nat) (k : Nat)
    (h : startups ≠ []) : getRandomStartup startups ex k ∈ startups := by
  unfold getRandomStartup
  by_cases hpos : 0 < (startups.filter fun s => !(ex.contains s.id)).length
  · rw [dif_pos hpos]
    exact List.mem_of_mem_filter (List.get_mem _ _ _)
  · rw [dif_neg hpos, dif_pos (List.length_pos.mpr h)]
    exact List.get_mem _ _ _

lemma getRandomStartup_fresh (startups : List Startup) (ex : List Nat) (k : Nat)
    (h : ∃ x ∈ startups, x.id ∉ ex) :
    getRandomStartup startups ex k ∈ startups ∧ (getRandomStartup startups ex k).id ∉ ex := by
  obtain ⟨x, hx, hxe⟩ := h
  have hxav : x ∈ startups.filter (fun s => !(ex.contains s.id)) :=
    List.mem_filter.mpr ⟨hx, by simpa using hxe⟩
  have hpos : 0 < (startups.filter (fun s => !(ex.contains s.id))).length :=
    List.length_pos.mpr (List.ne_nil_of_mem hxav)
  unfold getRandomStartup
  rw [dif_pos hpos]
  have hmem : (startups.filter (fun s => !(ex.contains s.id))).get
      ⟨k % _, Nat.mod_lt _ hpos⟩ ∈ startups.filter (fun s => !(ex.contains s.id)) :=
    List.get_mem _ _ _
  have hsplit := List.mem_filter.mp hmem
  exact ⟨List.mem_of_mem_filter hmem, by simpa using hsplit.2⟩

lemma getRandomStartup_covered (startups : List Startup) (ex : List Nat) (j : Nat)
    (hcov : ∀ x ∈ startups, x.id ∈ ex) (hj : j < startups.length) :
    getRandomStartup startups ex j = startups.get ⟨j, hj⟩ := by
  have hav : startups.filter (fun s => !(ex.contains s.id)) = [] := by
    rw [List.filter_eq_nil_iff]
    intro a ha
    simpa using hcov a ha
  unfold getRandomStartup
  rw [dif_neg (by rw [hav]; simp), dif_pos (by omega)]
  congr 1
  exact Fin.ext (Nat.mod_eq_of_lt hj)

lemma exists_id_notin (startups : List Startup) (hN : (startups.map Startup.id).Nodup)
    (ex : List Nat) (hlen : ex.length < startups.length) :
    ∃ x ∈ startups, x.id ∉ ex := by
  by_contra hcon
  push_neg at hcon
  have hsub : (startups.map Startup.id) ⊆ ex := by
    intro n hn
    obtain ⟨x, hx, rfl⟩ := List.mem_map.mp hn
    exact hcon x hx
  have hle := (hN.subperm hsub).length_le
  rw [List.length_map] at hle
  omega

lemma nodup_length_le_of_mem_iff (l : List Nat) (a b c : Nat) (hnd : l.Nodup)
    (h : ∀ n, n ∈ l → (n = a ∨ n = b ∨ n = c)) : l.length ≤ 3 := by
  have hsub : l ⊆ [a, b, c] := by
    intro n hn
    rcases h n hn with rfl | rfl | rfl <;> simp
  have := (hnd.subperm hsub).length_le
  simpa using this

lemma nodup_four_iff (a b c d : Nat) : [a, b, c, d].Nodup ↔
    (a ≠ b ∧ a ≠ c ∧ a ≠ d ∧ b ≠ c ∧ b ≠ d ∧ c ≠ d) := by
  simp only [List.nodup_cons, List.mem_cons, List.not_mem_nil, List.mem_singleton,
    List.nodup_nil, and_true, not_or, or_false]
  tauto

lemma guess_beq_true (a b : Guess) : (a == b) = true ↔ a = b := by
  cases a <;> cases b <;> decide

lemma initializeGame_def (startups : List Startup) (k1 k2 k3 k4 : Nat) (s : GameState)
    (h : ¬ startups.length < 2) :
    initializeGame startups k1 k2 k3 k4 s =
      { leftStartup := some (initPick1 startups k1),
        rightStartup := some (initPick2 startups k1 k2),
        prefetchedNext := some (initPick3 startups k1 k2 k3),
        prefetchedSecondNext := some (initPick4 startups k1 k2 k3 k4),
        score := 0, gameOver := false, showRightValuation := false,
        isAnimating := false,
        usedStartupIds := initUsed4 startups k1 k2 k3 k4,
        lastGuess := none } := by
  rw [initializeGame, if_neg h]
  rfl

lemma handleGuess_correct_eq (startups : List Startup) (guess : Guess) (k : Nat)
    (s : GameState) (left right pre1 pre2 : Startup)
    (hL : s.leftStartup = some left) (hR : s.rightStartup = some right)
    (hP1 : s.prefetchedNext = some pre1) (hP2 : s.prefetchedSecondNext = some pre2)
    (hanim : s.isAnimating = false)
    (hc : handleGuessIsCorrectRounded guess left.valuation right.valuation = true) :
    handleGuess startups guess k s =
      { leftStartup := some right, rightStartup := some pre1,
        prefetchedNext := some pre2,
        prefetchedSecondNext := some (guessPick startups k s left),
        score := s.score + 1, gameOver := s.gameOver,
        showRightValuation := false, isAnimating := false,
        usedStartupIds := addId (removeId s.usedStartupIds left.id)
          (guessPick startups k s left).id,
        lastGuess := none } := by
  simp only [handleGuess, hL, hR, hP1, hP2, hanim, hc]
  rfl

lemma handleGuess_incorrect_eq (startups : List Startup) (guess : Guess) (k : Nat)
    (s : GameState) (left right pre1 pre2 : Startup)
    (hL : s.leftStartup = some left) (hR : s.rightStartup = some right)
    (hP1 : s.prefetchedNext = some pre1) (hP2 : s.prefetchedSecondNext = some pre2)
    (hanim : s.isAnimating = false)
    (hc : handleGuessIsCorrectRounded guess left.valuation right.valuation = false) :
    handleGuess startups guess k s =
      { s with gameOver := true, showRightValuation := true, lastGuess := some guess } := by
  simp only [handleGuess, hL, hR, hP1, hP2, hanim, hc]
  rfl

lemma handleGuess_guard_eq (startups : List Startup) (guess : Guess) (k : Nat)
    (s : GameState)
    (h : s.isAnimating = true ∨ s.leftStartup = none ∨ s.rightStartup = none ∨
      s.prefetchedNext = none ∨ s.prefetchedSecondNext = none) :
    handleGuess startups guess k s = s := by
  rcases h with h | h | h | h | h
  · cases hL : s.leftStartup <;> cases hR : s.rightStartup <;>
      cases hP1 : s.prefetchedNext <;> cases hP2 : s.prefetchedSecondNext <;>
      simp only [handleGuess, hL, hR, hP1, hP2, h, if_true]
  · simp only [handleGuess, h]
  · cases hL : s.leftStartup <;> simp only [handleGuess, hL, h]
  · cases hL : s.leftStartup <;> cases hR : s.rightStartup <;>
      simp only [handleGuess, hL, hR, h]
  · cases hL : s.leftStartup <;> cases hR : s.rightStartup <;>
      cases hP1 : s.prefetchedNext <;> simp only [handleGuess, hL, hR, hP1, h]

lemma initializeGame_inv (startups : List Startup) (hlen : 4 ≤ startups.length)
    (hN : (startups.map Startup.id).Nodup) (k1 k2 k3 k4 : Nat) (s : GameState) :
    SessionInv (initializeGame startups k1 k2 k3 k4 s) := by
  have hne : startups ≠ [] := by
    intro h
    rw [h] at hlen
    simp at hlen
  rw [initializeGame_def startups k1 k2 k3 k4 s (by omega)]
  have e1 : ∀ n, n ∈ initUsed1 startups k1 ↔ n = (initPick1 startups k1).id := by
    intro n
    rw [initUsed1, mem_addId]
    simp
  have l1 : (initUsed1 startups k1).length ≤ 1 := by
    rw [initUsed1]
    simpa using length_addId_le [] (initPick1 startups k1).id
  have fr2 := getRandomStartup_fresh startups (initUsed1 startups k1) k2
    (exists_id_notin startups hN _ (by omega))
  rw [← initPick2] at fr2
  have e2 : ∀ n, n ∈ initUsed2 startups k1 k2 ↔
      (n = (initPick1 startups k1).id ∨ n = (initPick2 startups k1 k2).id) := by
    intro n
    rw [initUsed2, mem_addId, e1]
  have l2 : (initUsed2 startups k1 k2).length ≤ 2 := by
    rw [initUsed2]
    calc (addId (initUsed1 startups k1) (initPick2 startups k1 k2).id).length
        ≤ (initUsed1 startups k1).length + 1 := length_addId_le _ _
      _ ≤ 2 := by omega
  have fr3 := getRandomStartup_fresh startups (initUsed2 startups k1 k2) k3
    (exists_id_notin startups hN _ (by omega))
  rw [← initPick3] at fr3
  have e3 : ∀ n, n ∈ initUsed3 startups k1 k2 k3 ↔
      (n = (initPick1 startups k1).id ∨ n = (initPick2 startups k1 k2).id ∨
        n = (initPick3 startups k1 k2 k3).id) := by
    intro n
    rw [initUsed3, mem_addId, e2]
    tauto
  have l3 : (initUsed3 startups k1 k2 k3).length ≤ 3 := by
    rw [initUsed3]
    calc (addId (initUsed2 startups k1 k2) (initPick3 startups k1 k2 k3).id).length
        ≤ (initUsed2 startups k1 k2).length + 1 := length_addId_le _ _
      _ ≤ 3 := by omega
  have fr4 := getRandomStartup_fresh startups (initUsed3 startups k1 k2 k3) k4
    (exists_id_notin startups hN _ (by omega))
  rw [← initPick4] at fr4
  have e4 : ∀ n, n ∈ initUsed4 startups k1 k2 k3 k4 ↔
      (n = (initPick1 startups k1).id ∨ n = (initPick2 startups k1 k2).id ∨
        n = (initPick3 startups k1 k2 k3).id ∨ n = (initPick4 startups k1 k2 k3 k4).id) := by
    intro n
    rw [initUsed4, mem_addId, e3]
    tauto
  have n21 : (initPick2 startups k1 k2).id ≠ (initPick1 startups k1).id :=
    fun h => fr2.2 ((e1 _).mpr h)
  have n31 : (initPick3 startups k1 k2 k3).id ≠ (initPick1 startups k1).id :=
    fun h => fr3.2 ((e2 _).mpr (Or.inl h))
  have n32 : (initPick3 startups k1 k2 k3).id ≠ (initPick2 startups k1 k2).id :=
    fun h => fr3.2 ((e2 _).mpr (Or.inr h))
  have n41 : (initPick4 startups k1 k2 k3 k4).id ≠ (initPick1 startups k1).id :=
    fun h => fr4.2 ((e3 _).mpr (Or.inl h))
  have n42 : (initPick4 startups k1 k2 k3 k4).id ≠ (initPick2 startups k1 k2).id :=
    fun h => fr4.2 ((e3 _).mpr (Or.inr (Or.inl h)))
  have n43 : (initPick4 startups k1 k2 k3 k4).id ≠ (initPick3 startups k1 k2 k3).id :=
    fun h => fr4.2 ((e3 _).mpr (Or.inr (Or.inr h)))
  refine ⟨initPick1 startups k1, initPick2 startups k1 k2, initPick3 startups k1 k2 k3,
    initPick4 startups k1 k2 k3 k4, rfl, rfl, rfl, rfl, ?_, ?_, fun n => e4 n⟩
  · exact (nodup_four_iff _ _ _ _).mpr ⟨fun h => n21 h.symm, fun h => n31 h.symm,
      fun h => n41 h.symm, fun h => n32 h.symm, fun h => n42 h.symm, fun h => n43 h.symm⟩
  · rw [initUsed4, initUsed3, initUsed2, initUsed1]
    exact nodup_addId _ _ (nodup_addId _ _ (nodup_addId _ _ (nodup_addId _ _ List.nodup_nil)))

lemma handleGuess_inv (startups : List Startup) (hlen : 4 ≤ startups.length)
    (hN : (startups.map Startup.id).Nodup) (guess : Guess) (k : Nat) (s : GameState)
    (hInv : SessionInv s) : SessionInv (handleGuess startups guess k s) := by
  obtain ⟨L, R, P1, P2, hL, hR, hP1, hP2, hnd, hund, hmem⟩ := hInv
  obtain ⟨hLR, hLP1, hLP2, hRP1, hRP2, hP1P2⟩ := (nodup_four_iff _ _ _ _).mp hnd
  by_cases ha : s.isAnimating
  · rw [handleGuess_guard_eq startups guess k s (Or.inl ha)]
    exact ⟨L, R, P1, P2, hL, hR, hP1, hP2, hnd, hund, hmem⟩
  · by_cases hc : handleGuessIsCorrectRounded guess L.valuation R.valuation
    · rw [handleGuess_correct_eq startups guess k s L R P1 P2 hL hR hP1 hP2
        (Bool.not_eq_true _ ▸ ha) hc]
      have enew : ∀ n, n ∈ removeId s.usedStartupIds L.id ↔
          (n = R.id ∨ n = P1.id ∨ n = P2.id) := by
        intro n
        rw [mem_removeId, hmem n]
        constructor
        · rintro ⟨rfl | h | h | h, h2⟩
          · exact absurd rfl h2
          · exact Or.inl h
          · exact Or.inr (Or.inl h)
          · exact Or.inr (Or.inr h)
        · rintro (rfl | rfl | rfl)
          · exact ⟨Or.inr (Or.inl rfl), fun h => hLR h.symm⟩
          · exact ⟨Or.inr (Or.inr (Or.inl rfl)), fun h => hLP1 h.symm⟩
          · exact ⟨Or.inr (Or.inr (Or.inr rfl)), fun h => hLP2 h.symm⟩
      have hndnew : (removeId s.usedStartupIds L.id).Nodup := nodup_removeId _ _ hund
      have hlen3 : (removeId s.usedStartupIds L.id).length ≤ 3 :=
        nodup_length_le_of_mem_iff _ R.id P1.id P2.id hndnew fun n hn => (enew n).mp hn
      have frc := getRandomStartup_fresh startups (removeId s.usedStartupIds L.id) k
        (exists_id_notin startups hN _ (by omega))
      rw [← guessPick] at frc
      have ncR : (guessPick startups k s L).id ≠ R.id :=
        fun h => frc.2 ((enew _).mpr (Or.inl h))
      have ncP1 : (guessPick startups k s L).id ≠ P1.id :=
        fun h => frc.2 ((enew _).mpr (Or.inr (Or.inl h)))
      have ncP2 : (guessPick startups k s L).id ≠ P2.id :=
        fun h => frc.2 ((enew _).mpr (Or.inr (Or.inr h)))
      refine ⟨R, P1, P2, guessPick startups k s L, rfl, rfl, rfl, rfl, ?_, ?_, ?_⟩
      · exact (nodup_four_iff _ _ _ _).mpr ⟨hRP1, hRP2, fun h => ncR h.symm, hP1P2,
          fun h => ncP1 h.symm, fun h => ncP2 h.symm⟩
      · exact nodup_addId _ _ hndnew
      · intro n
        rw [mem_addId, enew n]
        tauto
    · rw [handleGuess_incorrect_eq startups guess k s L R P1 P2 hL hR hP1 hP2
        (Bool.not_eq_true _ ▸ ha) (Bool.not_eq_true _ ▸ hc)]
      exact ⟨L, R, P1, P2, hL, hR, hP1, hP2, hnd, hund, hmem⟩

lemma runGuesses_inv (startups : List Startup) (hlen : 4 ≤ startups.length)
    (hN : (startups.map Startup.id).Nodup) (gs : List (Guess × Nat)) (s : GameState)
    (hInv : SessionInv s) : SessionInv (runGuesses startups s gs) := by
  induction gs generalizing s with
  | nil => exact hInv
  | cons gk rest ih =>
    exact ih _ (handleGuess_inv startups hlen hN gk.1 gk.2 s hInv)

lemma sessionInv_distinct (s : GameState) (h : SessionInv s) :
    distinctActivePair s = true := by
  obtain ⟨L, R, _, _, hL, hR, _, _, hnd, _, _⟩ := h
  have : L.id ≠ R.id := ((nodup_four_iff _ _ _ _).mp hnd).1
  simp [distinctActivePair, hL, hR, this]

lemma huntRandomStartup_count_le (fetchAt : Nat → Option Startup) (totalCount : Nat)
    (excludeIds : List Nat) (offs : Nat → Nat) (attempts fuel : Nat) :
    (huntRandomStartup fetchAt totalCount excludeIds offs attempts fuel).2 ≤ fuel := by
  induction fuel generalizing attempts with
  | zero => simp [huntRandomStartup]
  | succ f ih =>
    simp only [huntRandomStartup]
    cases hfa : fetchAt (offs attempts % totalCount) with
    | none =>
      simpa using ih (attempts + 1)
    | some data =>
      by_cases hex : data.id ∈ excludeIds
      · simpa [hex] using ih (attempts + 1)
      · simp [hex]

lemma huntRandomStartup_found (fetchAt : Nat → Option Startup) (totalCount : Nat)
    (excludeIds : List Nat) (offs : Nat → Nat) (attempts fuel : Nat) (d : Startup)
    (h : (huntRandomStartup fetchAt totalCount excludeIds offs attempts fuel).1 = some d) :
    ∃ i, attempts ≤ i ∧ i < attempts + fuel ∧ fetchAt (offs i % totalCount) = some d ∧
      excludeIds.contains d.id = false := by
  induction fuel generalizing attempts with
  | zero => simp [huntRandomStartup] at h
  | succ f ih =>
    simp only [huntRandomStartup] at h
    cases hfa : fetchAt (offs attempts % totalCount) with
    | none =>
      rw [hfa] at h
      simp at h
      obtain ⟨i, h1, h2, h3, h4⟩ := ih (attempts + 1) h
      exact ⟨i, by omega, by omega, h3, h4⟩
    | some data =>
      rw [hfa] at h
      by_cases hex : data.id ∈ excludeIds
      · simp [hex] at h
        obtain ⟨i, h1, h2, h3, h4⟩ := ih (attempts + 1) h
        exact ⟨i, by omega, by omega, h3, h4⟩
      · simp [hex] at h
        subst h
        exact ⟨attempts, Nat.le_refl _, by omega, hfa, by simpa using hex⟩

/-- Claim C1: `handleGuess` judges a guess correct exactly when the comparator
relation holds between the right and left valuations for the chosen direction —
raw values in the raw-comparison variant, rounded display values in the rounded
variants, where equality of the rounded values counts as correct for either
direction; in particular 10400000000 and 10490000000 both display as "10 B" and
are judged correct regardless of the guessed direction. -/
theorem guess_judged_correct_iff (guess : Guess) (leftValuation rightValuation : Nat) :
    (handleGuessIsCorrectRaw guess leftValuation rightValuation = true ↔
      ((guess = Guess.higher ∧ leftValuation < rightValuation) ∨
        (guess = Guess.lower ∧ rightValuation < leftValuation))) ∧
    (handleGuessIsCorrectRounded guess leftValuation rightValuation = true ↔
      (getRoundedValuationNumber rightValuation = getRoundedValuationNumber leftValuation ∨
        (guess = Guess.higher ∧
          getRoundedValuationNumber leftValuation < getRoundedValuationNumber rightValuation) ∨
        (guess = Guess.lower ∧
          getRoundedValuationNumber rightValuation < getRoundedValuationNumber leftValuation))) ∧
    formatValuation 10400000000 = "10 B" ∧
    formatValuation 10490000000 = "10 B" ∧
    handleGuessIsCorrectRounded guess 10400000000 10490000000 = true ∧
    handleGuessIsCorrectRounded guess 10490000000 10400000000 = true := by
  refine ⟨?_, ?_, by decide, by decide, by cases guess <;> decide, by cases guess <;> decide⟩ <;>
    cases guess <;>
    simp [handleGuessIsCorrectRaw, handleGuessIsCorrectRounded, guess_beq_true]

/-- Claim C2, counterexample: on a two-item pool (initialisation proceeds from
two items up) both guesses are judged correct (equal rounded buckets) and are
accepted from reachable states, yet after two correct guesses the recycled
prefetches make the left-active and right-active items the same record, so the
claimed identifier-distinctness invariant fails on sessions whose random
selection had to recycle an in-play item. -/
theorem left_right_ids_collide_after_recycle :
    guessAccepted Guess.higher (initializeGame smallPool 0 0 0 0 initialGameState) = true ∧
    guessAccepted Guess.higher
      (handleGuess smallPool Guess.higher 0 (initializeGame smallPool 0 0 0 0 initialGameState)) = true ∧
    (runGuesses smallPool (initializeGame smallPool 0 0 0 0 initialGameState)
      [(Guess.higher, 0), (Guess.higher, 0)]).leftStartup = some smallPoolA ∧
    (runGuesses smallPool (initializeGame smallPool 0 0 0 0 initialGameState)
      [(Guess.higher, 0), (Guess.higher, 0)]).rightStartup = some smallPoolA ∧
    distinctActivePair (runGuesses smallPool (initializeGame smallPool 0 0 0 0 initialGameState)
      [(Guess.higher, 0), (Guess.higher, 0)]) = false := by
  decide

/-- Claim C2, amended: in every state reached from Initialize by any sequence
of guesses, the left-active and right-active identifiers are distinct, provided
the candidate pool holds at least four items with pairwise-distinct identifiers
(the regime in which the random selection never recycles an in-play item). -/
theorem left_right_ids_distinct_in_big_pool (startups : List Startup)
    (hlen : 4 ≤ startups.length) (hN : (startups.map Startup.id).Nodup)
    (k1 k2 k3 k4 : Nat) (gs : List (Guess × Nat)) (s0 : GameState) :
    distinctActivePair (runGuesses startups (initializeGame startups k1 k2 k3 k4 s0) gs) = true :=
  sessionInv_distinct _ (runGuesses_inv startups hlen hN gs _
    (initializeGame_inv startups hlen hN k1 k2 k3 k4 s0))

/-- Witness for the amended C2 on the ten-record fallback pool. -/
theorem left_right_ids_distinct_in_big_pool_witness :
    distinctActivePair (runGuesses fallbackStartups
      (initializeGame fallbackStartups 0 1 2 3 initialGameState)
      [(Guess.higher, 0), (Guess.lower, 1)]) = true :=
  left_right_ids_distinct_in_big_pool fallbackStartups (by decide) (by decide) 0 1 2 3
    [(Guess.higher, 0), (Guess.lower, 1)] initialGameState

/-- Claim C3: a correct guess taken from a `Ready` state commits: new left =
prior right, new right = prior first prefetch, new first prefetch = prior
second prefetch, and the second prefetch slot holds a newly drawn item whose
exclusion set is exactly the identifiers of the prior right and the two prior
prefetches (the items active or prefetched after the shift), and whose
identifier differs from all three when the pool is well-stocked. -/
theorem correct_guess_shifts_queue (startups : List Startup)
    (hlen : 4 ≤ startups.length) (hN : (startups.map Startup.id).Nodup)
    (guess : Guess) (k : Nat) (s : GameState) (left right pre1 pre2 : Startup)
    (hL : s.leftStartup = some left) (hR : s.rightStartup = some right)
    (hP1 : s.prefetchedNext = some pre1) (hP2 : s.prefetchedSecondNext = some pre2)
    (hanim : s.isAnimating = false)
    (hnd : [left.id, right.id, pre1.id, pre2.id].Nodup)
    (hused : s.usedStartupIds = [left.id, right.id, pre1.id, pre2.id])
    (hc : handleGuessIsCorrectRounded guess left.valuation right.valuation = true) :
    (handleGuess startups guess k s).leftStartup = some right ∧
    (handleGuess startups guess k s).rightStartup = some pre1 ∧
    (handleGuess startups guess k s).prefetchedNext = some pre2 ∧
    (handleGuess startups guess k s).prefetchedSecondNext =
      some (getRandomStartup startups [right.id, pre1.id, pre2.id] k) ∧
    getRandomStartup startups [right.id, pre1.id, pre2.id] k ∈ startups ∧
    (getRandomStartup startups [right.id, pre1.id, pre2.id] k).id ≠ right.id ∧
    (getRandomStartup startups [right.id, pre1.id, pre2.id] k).id ≠ pre1.id ∧
    (getRandomStartup startups [right.id, pre1.id, pre2.id] k).id ≠ pre2.id := by
  obtain ⟨hLR, hLP1, hLP2, hRP1, hRP2, hP1P2⟩ := (nodup_four_iff _ _ _ _).mp hnd
  have hrem : removeId s.usedStartupIds left.id = [right.id, pre1.id, pre2.id] := by
    rw [hused]
    simp [removeId, List.filter, Ne.symm hLR, Ne.symm hLP1, Ne.symm hLP2]
  have frc := getRandomStartup_fresh startups [right.id, pre1.id, pre2.id] k
    (exists_id_notin startups hN [right.id, pre1.id, pre2.id] (by simp; omega))
  rw [handleGuess_correct_eq startups guess k s left right pre1 pre2 hL hR hP1 hP2 hanim hc]
  refine ⟨rfl, rfl, rfl, ?_, frc.1, ?_, ?_, ?_⟩
  · show some (guessPick startups k s left) = _
    rw [guessPick, hrem]
  · exact fun h => frc.2 (by rw [h]; simp)
  · exact fun h => frc.2 (by rw [h]; simp)
  · exact fun h => frc.2 (by rw [h]; simp)

/-- Witness for C3: a correct `lower` guess from a concrete `Ready` state. -/
theorem correct_guess_shifts_queue_witness :
    (handleGuess fallbackStartups Guess.lower 0 readyState).leftStartup = some wRight ∧
    (handleGuess fallbackStartups Guess.lower 0 readyState).rightStartup = some wPre1 ∧
    (handleGuess fallbackStartups Guess.lower 0 readyState).prefetchedNext = some wPre2 ∧
    (handleGuess fallbackStartups Guess.lower 0 readyState).prefetchedSecondNext =
      some (getRandomStartup fallbackStartups [wRight.id, wPre1.id, wPre2.id] 0) ∧
    getRandomStartup fallbackStartups [wRight.id, wPre1.id, wPre2.id] 0 ∈ fallbackStartups ∧
    (getRandomStartup fallbackStartups [wRight.id, wPre1.id, wPre2.id] 0).id ≠ wRight.id ∧
    (getRandomStartup fallbackStartups [wRight.id, wPre1.id, wPre2.id] 0).id ≠ wPre1.id ∧
    (getRandomStartup fallbackStartups [wRight.id, wPre1.id, wPre2.id] 0).id ≠ wPre2.id :=
  correct_guess_shifts_queue fallbackStartups (by decide) (by decide) Guess.lower 0 readyState
    wLeft wRight wPre1 wPre2 rfl rfl rfl rfl rfl (by decide) rfl (by decide)

/-- Claim C4: an incorrect guess sets the terminal flag and leaves the
left-active item, the right-active item, the prefetch buffer, the used-id set
and the score unchanged, and retains the guessed direction for display. -/
theorem incorrect_guess_sets_game_over_only (startups : List Startup) (guess : Guess) (k : Nat)
    (s : GameState) (left right pre1 pre2 : Startup)
    (hL : s.leftStartup = some left) (hR : s.rightStartup = some right)
    (hP1 : s.prefetchedNext = some pre1) (hP2 : s.prefetchedSecondNext = some pre2)
    (hanim : s.isAnimating = false)
    (hc : handleGuessIsCorrectRounded guess left.valuation right.valuation = false) :
    (handleGuess startups guess k s).gameOver = true ∧
    (handleGuess startups guess k s).leftStartup = s.leftStartup ∧
    (handleGuess startups guess k s).rightStartup = s.rightStartup ∧
    (handleGuess startups guess k s).prefetchedNext = s.prefetchedNext ∧
    (handleGuess startups guess k s).prefetchedSecondNext = s.prefetchedSecondNext ∧
    (handleGuess startups guess k s).usedStartupIds = s.usedStartupIds ∧
    (handleGuess startups guess k s).score = s.score ∧
    (handleGuess startups guess k s).lastGuess = some guess := by
  rw [handleGuess_incorrect_eq startups guess k s left right pre1 pre2 hL hR hP1 hP2 hanim hc]
  exact ⟨rfl, rfl, rfl, rfl, rfl, rfl, rfl, rfl⟩

/-- Witness for C4: an incorrect `higher` guess from a concrete `Ready` state. -/
theorem incorrect_guess_sets_game_over_only_witness :
    (handleGuess fallbackStartups Guess.higher 0 readyState).gameOver = true ∧
    (handleGuess fallbackStartups Guess.higher 0 readyState).leftStartup = readyState.leftStartup ∧
    (handleGuess fallbackStartups Guess.higher 0 readyState).rightStartup = readyState.rightStartup ∧
    (handleGuess fallbackStartups Guess.higher 0 readyState).prefetchedNext = readyState.prefetchedNext ∧
    (handleGuess fallbackStartups Guess.higher 0 readyState).prefetchedSecondNext = readyState.prefetchedSecondNext ∧
    (handleGuess fallbackStartups Guess.higher 0 readyState).usedStartupIds = readyState.usedStartupIds ∧
    (handleGuess fallbackStartups Guess.higher 0 readyState).score = readyState.score ∧
    (handleGuess fallbackStartups Guess.higher 0 readyState).lastGuess = some Guess.higher :=
  incorrect_guess_sets_game_over_only fallbackStartups Guess.higher 0 readyState wLeft wRight wPre1 wPre2
    rfl rfl rfl rfl rfl (by decide)

/-- Claim C5: the score never decreases across a `handleGuess` transition, a
transition changes it by exactly one exactly when the guess is accepted as
correct from a guarded state, and `initializeGame` resets it to zero whenever
it commits (and is the identity on the state when the pool is too small). -/
theorem score_monotone_and_resets_on_init (startups : List Startup) (guess : Guess) (k k1 k2 k3 k4 : Nat)
    (s s0 : GameState) :
    ((handleGuess startups guess k s).score = s.score ∨
      (handleGuess startups guess k s).score = s.score + 1) ∧
    s.score ≤ (handleGuess startups guess k s).score ∧
    ((handleGuess startups guess k s).score = s.score + 1 ↔ guessAccepted guess s = true) ∧
    (¬ startups.length < 2 → (initializeGame startups k1 k2 k3 k4 s0).score = 0) ∧
    (startups.length < 2 → initializeGame startups k1 k2 k3 k4 s0 = s0) := by
  have hmain : ((handleGuess startups guess k s).score = s.score ∧ guessAccepted guess s = false) ∨
      ((handleGuess startups guess k s).score = s.score + 1 ∧ guessAccepted guess s = true) := by
    cases hL : s.leftStartup with
    | none =>
      left
      rw [handleGuess_guard_eq startups guess k s (Or.inr (Or.inl hL))]
      simp [guessAccepted, hL]
    | some left =>
      cases hR : s.rightStartup with
      | none =>
        left
        rw [handleGuess_guard_eq startups guess k s (Or.inr (Or.inr (Or.inl hR)))]
        simp [guessAccepted, hL, hR]
      | some right =>
        cases hP1 : s.prefetchedNext with
        | none =>
          left
          rw [handleGuess_guard_eq startups guess k s (Or.inr (Or.inr (Or.inr (Or.inl hP1))))]
          simp [guessAccepted, hL, hR, hP1]
        | some pre1 =>
          cases hP2 : s.prefetchedSecondNext with
          | none =>
            left
            rw [handleGuess_guard_eq startups guess k s
              (Or.inr (Or.inr (Or.inr (Or.inr hP2))))]
            simp [guessAccepted, hL, hR, hP1, hP2]
          | some pre2 =>
            by_cases ha : s.isAnimating
            · left
              rw [handleGuess_guard_eq startups guess k s (Or.inl ha)]
              simp [guessAccepted, hL, hR, hP1, hP2, ha]
            · by_cases hc : handleGuessIsCorrectRounded guess left.valuation right.valuation
              · right
                rw [handleGuess_correct_eq startups guess k s left right pre1 pre2 hL hR hP1 hP2
                  (Bool.not_eq_true _ ▸ ha) hc]
                simp [guessAccepted, hL, hR, hP1, hP2, ha, hc]
              · left
                rw [handleGuess_incorrect_eq startups guess k s left right pre1 pre2 hL hR hP1 hP2
                  (Bool.not_eq_true _ ▸ ha) (Bool.not_eq_true _ ▸ hc)]
                simp [guessAccepted, hL, hR, hP1, hP2, ha, hc]
  refine ⟨?_, ?_, ?_, ?_, ?_⟩
  · rcases hmain with ⟨h1, _⟩ | ⟨h1, _⟩
    · exact Or.inl h1
    · exact Or.inr h1
  · rcases hmain with ⟨h1, _⟩ | ⟨h1, _⟩ <;> omega
  · constructor
    · intro hsc
      rcases hmain with ⟨h1, _⟩ | ⟨_, h2⟩
      · omega
      · exact h2
    · intro hacc
      rcases hmain with ⟨_, h2⟩ | ⟨h1, _⟩
      · rw [hacc] at h2
        exact absurd h2 (by simp)
      · exact h1
  · intro h
    rw [initializeGame_def startups k1 k2 k3 k4 s0 h]
  · intro h
    rw [initializeGame, if_pos h]

/-- Witness for C5 at a concrete state and pool. -/
theorem score_monotone_and_resets_on_init_witness :
    ((handleGuess fallbackStartups Guess.lower 0 readyState).score = readyState.score ∨
      (handleGuess fallbackStartups Guess.lower 0 readyState).score = readyState.score + 1) ∧
    readyState.score ≤ (handleGuess fallbackStartups Guess.lower 0 readyState).score ∧
    ((handleGuess fallbackStartups Guess.lower 0 readyState).score = readyState.score + 1 ↔
      guessAccepted Guess.lower readyState = true) ∧
    (¬ fallbackStartups.length < 2 →
      (initializeGame fallbackStartups 0 0 0 0 initialGameState).score = 0) ∧
    (fallbackStartups.length < 2 →
      initializeGame fallbackStartups 0 0 0 0 initialGameState = initialGameState) :=
  score_monotone_and_resets_on_init fallbackStartups Guess.lower 0 0 0 0 0 readyState initialGameState

/-- Claim C6: with the remote configuration absent, `fetchStartups` yields
exactly the ten embedded fallback records with the demo-mode flag set, whatever
the remote outcome would have been, and initialisation over that pool reaches
the `Ready` state. -/
theorem missing_config_reaches_ready_in_demo_mode (env : SupabaseEnv) (remote : Except String (List Startup))
    (k1 k2 k3 k4 : Nat) (h : env.url = none ∨ env.key = none) :
    (fetchStartups env remote).1 = fallbackStartups ∧
    (fetchStartups env remote).2 = true ∧
    fallbackStartups.length = 10 ∧
    isReady (initializeGame (fetchStartups env remote).1 k1 k2 k3 k4 initialGameState) = true := by
  have htry : tryGetSupabase env = none := by
    rcases h with h | h
    · simp [tryGetSupabase, h]
    · cases hu : env.url <;> simp [tryGetSupabase, h, hu]
  have hfetch : fetchStartups env remote = (fallbackStartups, true) := by
    simp [fetchStartups, htry]
  refine ⟨by rw [hfetch], by rw [hfetch], by decide, ?_⟩
  rw [hfetch]
  rw [initializeGame_def fallbackStartups k1 k2 k3 k4 initialGameState (by decide)]
  rfl

/-- Witness for C6: both environment variables absent. -/
theorem missing_config_reaches_ready_in_demo_mode_witness :
    (fetchStartups noConfigEnv (Except.error "network down")).1 = fallbackStartups ∧
    (fetchStartups noConfigEnv (Except.error "network down")).2 = true ∧
    fallbackStartups.length = 10 ∧
    isReady (initializeGame (fetchStartups noConfigEnv (Except.error "network down")).1
      0 0 0 0 initialGameState) = true :=
  missing_config_reaches_ready_in_demo_mode noConfigEnv (Except.error "network down") 0 0 0 0 (Or.inl rfl)

/-- Claim C7, counterexample: in the first iteration, on a non-empty pool fully
covered by the exclusion set, the selection is not a uniform draw from the
entire pool — on a fully-excluded singleton pool it returns `undefined`
(`none`), failing instead of recycling. -/
theorem first_variant_selection_fails_on_exhausted_singleton :
    soloStartup.id ∈ [soloStartup.id] ∧ ([soloStartup] : List Startup) ≠ [] ∧
    getRandomStartupFirstVariant [soloStartup] [soloStartup.id] 0 = none := by
  decide

/-- Claim C7, amended: in the prefetch iterations, on a non-empty in-memory
pool the selection always returns a pool member; when the exclusion set covers
the whole pool it draws uniformly from the entire pool (index `j` yields the
`j`-th item, for every index); and when some item is outside the exclusion set
the returned item is never excluded. -/
theorem random_selection_uniform_and_total (startups : List Startup) (ex : List Nat) (h : startups ≠ []) :
    (∀ k, getRandomStartup startups ex k ∈ startups) ∧
    ((∀ x ∈ startups, x.id ∈ ex) → ∀ j (hj : j < startups.length),
      getRandomStartup startups ex j = startups.get ⟨j, hj⟩) ∧
    ((∃ x ∈ startups, x.id ∉ ex) → ∀ k, (getRandomStartup startups ex k).id ∉ ex) :=
  ⟨fun k => getRandomStartup_mem startups ex k h,
    fun hcov j hj => getRandomStartup_covered startups ex j hcov hj,
    fun hex k => (getRandomStartup_fresh startups ex k hex).2⟩

/-- Witness for the amended C7 on a concrete two-item pool with covering exclusion. -/
theorem random_selection_uniform_and_total_witness :
    (∀ k, getRandomStartup smallPool [1, 2] k ∈ smallPool) ∧
    ((∀ x ∈ smallPool, x.id ∈ [1, 2]) → ∀ j (hj : j < smallPool.length),
      getRandomStartup smallPool [1, 2] j = smallPool.get ⟨j, hj⟩) ∧
    ((∃ x ∈ smallPool, x.id ∉ [1, 2]) → ∀ k, (getRandomStartup smallPool [1, 2] k).id ∉ [1, 2]) :=
  random_selection_uniform_and_total smallPool [1, 2] (by decide)

/-- Claim C8: the random-offset hunt performs at most 20 fetch attempts
(`MAX_ATTEMPTS`), and the selection operation built on it is total: it returns
either a fetched record that was found non-excluded within those attempts, or,
after exhausting them, a recycled member of the fallback list (possibly one
already used) rather than failing the game. -/
theorem offset_search_bounded_and_recycles (fetchAt : Nat → Option Startup) (totalCount : Nat)
    (excludeIds : List Nat) (offs : Nat → Nat) (kFall : Nat)
    (hcount : totalCount ≠ 0) :
    (huntRandomStartup fetchAt totalCount excludeIds offs 0 MAX_ATTEMPTS).2 ≤ 20 ∧
    ((∃ i, i < 20 ∧
        fetchAt (offs i % totalCount) =
          some (getRandomStartupAtOffsets true false fetchAt totalCount excludeIds offs kFall) ∧
        excludeIds.contains
          (getRandomStartupAtOffsets true false fetchAt totalCount excludeIds offs kFall).id =
            false) ∨
      getRandomStartupAtOffsets true false fetchAt totalCount excludeIds offs kFall ∈
        fallbackStartups) := by
  constructor
  · exact huntRandomStartup_count_le fetchAt totalCount excludeIds offs 0 MAX_ATTEMPTS
  · unfold getRandomStartupAtOffsets
    rw [if_neg (by decide), if_neg hcount]
    cases hh : (huntRandomStartup fetchAt totalCount excludeIds offs 0 MAX_ATTEMPTS).1 with
    | some d =>
      left
      simp only [hh]
      obtain ⟨i, h1, h2, h3, h4⟩ :=
        huntRandomStartup_found fetchAt totalCount excludeIds offs 0 MAX_ATTEMPTS d hh
      exact ⟨i, by simpa [MAX_ATTEMPTS] using h2, h3, h4⟩
    | none =>
      right
      simp only [hh]
      rw [dif_pos (by decide)]
      exact List.get_mem _ _ _

/-- Witness for C8: every fetch errors, so the hunt exhausts its attempts. -/
theorem offset_search_bounded_and_recycles_witness :
    (huntRandomStartup (fun _ => none) 5 [] (fun i => i) 0 MAX_ATTEMPTS).2 ≤ 20 ∧
    ((∃ i, i < 20 ∧
        (fun _ => (none : Option Startup)) ((fun i => i) i % 5) =
          some (getRandomStartupAtOffsets true false (fun _ => none) 5 [] (fun i => i) 0) ∧
        ([] : List Nat).contains
          (getRandomStartupAtOffsets true false (fun _ => none) 5 [] (fun i => i) 0).id = false) ∨
      getRandomStartupAtOffsets true false (fun _ => none) 5 [] (fun i => i) 0 ∈
        fallbackStartups) :=
  offset_search_bounded_and_recycles (fun _ => none) 5 [] (fun i => i) 0 (by decide)

/-- Claim C9: the image resolver returns the placeholder URL for a missing or
empty reference, returns a reference starting with "http" unchanged, and
otherwise resolves the reference against the `startup-images` storage
namespace, returning the placeholder when no remote client can be
constructed. -/
theorem image_resolver_contract (env : SupabaseEnv) (imagePath : Option String) :
    (imagePath = none → getSupabaseImageUrl env imagePath = placeholderImageUrl) ∧
    (∀ p : String, imagePath = some p → p.isEmpty = true →
      getSupabaseImageUrl env imagePath = placeholderImageUrl) ∧
    (∀ p : String, imagePath = some p → p.isEmpty = false → stringStartsWith p "http" = true →
      getSupabaseImageUrl env imagePath = p) ∧
    (∀ p : String, imagePath = some p → p.isEmpty = false → stringStartsWith p "http" = false →
      tryGetSupabase env = none → getSupabaseImageUrl env imagePath = placeholderImageUrl) ∧
    (∀ (p : String) (client : SupabaseClient), imagePath = some p → p.isEmpty = false →
      stringStartsWith p "http" = false → tryGetSupabase env = some client →
      getSupabaseImageUrl env imagePath = storagePublicUrl client "startup-images" p) := by
  refine ⟨?_, ?_, ?_, ?_, ?_⟩
  · rintro rfl
    rfl
  · rintro p rfl hp
    simp [getSupabaseImageUrl, hp]
  · rintro p rfl hp hhttp
    simp [getSupabaseImageUrl, hp, hhttp]
  · rintro p rfl hp hhttp htry
    simp [getSupabaseImageUrl, hp, hhttp, htry]
  · rintro p client rfl hp hhttp htry
    simp [getSupabaseImageUrl, hp, hhttp, htry]

/-- Witness for C9: a plain storage path resolved against a constructed
client. -/
theorem image_resolver_contract_witness :
    getSupabaseImageUrl demoEnv (some "logos/pic.png") =
      storagePublicUrl demoClient "startup-images" "logos/pic.png" :=
  (image_resolver_contract demoEnv (some "logos/pic.png")).2.2.2.2 "logos/pic.png" demoClient
    rfl (by decide) (by decide) rfl

/-- Claim C10: a guess arriving while the advancement animation is in progress
or while any of the left, right or prefetch slots is empty returns immediately
with the whole game state unchanged. -/
theorem guarded_guess_leaves_state_unchanged (startups : List Startup) (guess : Guess) (k : Nat) (s : GameState)
    (h : s.isAnimating = true ∨ s.leftStartup = none ∨ s.rightStartup = none ∨
      s.prefetchedNext = none ∨ s.prefetchedSecondNext = none) :
    handleGuess startups guess k s = s :=
  handleGuess_guard_eq startups guess k s h

/-- Witness for C10: the mount state has all slots empty. -/
theorem guarded_guess_leaves_state_unchanged_witness :
    handleGuess fallbackStartups Guess.higher 0 initialGameState = initialGameState :=
  guarded_guess_leaves_state_unchanged fallbackStartups Guess.higher 0 initialGameState (Or.inr (Or.inl rfl))

end HigherOrLower
